import Mathlib

/-!
Verification of the job-coordination and media-composition subsystem of the
LetMeCookAI pipeline.  The Python sources are shallowly embedded:

* `RequestMediaGeneration` models `src/request_media_generation/request_media_generation.py`
  (scene extraction, the parallel orchestrator, per-scene fragment generation,
  result storage and the completion trigger);
* `ComposeMedia` models `src/compose_media/compose_media.py`
  (the compositor lambda: readiness check, download, parity check, ffmpeg
  pipeline, upload, and coordination-record updates);
* `UploadYoutube` models the video-selection logic of
  `src/upload_youtube/upload-youtube.py`.

External effects are made explicit: DynamoDB is a per-job record, S3 is a list
of keys (overwrite-on-put), the ffmpeg subprocess and the inference APIs are
oracles supplied as parameters.  Concurrency (`asyncio.gather` with
`return_exceptions=True`) is order-preserving in the source, so the gathered
outcome lists are built positionally.
-/

/-- True when every character of the string is whitespace, i.e. exactly when
Python `not s.strip()` holds. -/
def isBlank (s : String) : Bool :=
  s.toList.all Char.isWhitespace

/-- Python `str.strip` on the character list of a string. -/
def stripChars (l : List Char) : List Char :=
  ((l.dropWhile Char.isWhitespace).reverse.dropWhile Char.isWhitespace).reverse

/-- Python `f"..".strip()` producing a string again. -/
def stripStr (s : String) : String :=
  ⟨stripChars s.toList⟩

/-- Key starts with the given piece (Python `str.startswith`, also the S3
`Prefix=` filter of `list_objects_v2`). -/
def strStarts (s pat : String) : Bool :=
  pat.toList.isPrefixOf s.toList

/-- Key ends with the given piece (Python `str.endswith`). -/
def strEnds (s pat : String) : Bool :=
  pat.toList.reverse.isPrefixOf s.toList.reverse

/-- Character-list infix test. -/
def listContains : List Char → List Char → Bool
  | needle, [] => needle.isEmpty
  | needle, c :: t => needle.isPrefixOf (c :: t) || listContains needle t

/-- Python `pat in s` substring test. -/
def strContains (s pat : String) : Bool :=
  listContains pat.toList s.toList

/-- The characters after the last slash: `os.path.basename`. -/
def baseNameChars (l : List Char) : List Char :=
  ((l.reverse.takeWhile (fun c => c != '/')).reverse)

/-- Numeric value of a digit run. -/
def natFromDigits (ds : List Char) : Nat :=
  ds.foldl (fun acc c => acc * 10 + (c.toNat - 48)) 0

/-- Python `f"{n:02d}"`. -/
def pad2 (n : Nat) : String :=
  if n < 10 then "0" ++ toString n else toString n

/-- Stable insertion step; `sortBy` below is stable, hence produces the same
list as Python's stable `list.sort(key=...)` for the same key. -/
def insertBy (le : α → α → Bool) (x : α) : List α → List α
  | [] => [x]
  | y :: ys => if le x y then x :: y :: ys else y :: insertBy le x ys

/-- Stable sort used to model `files.sort(key=lambda x: x["scene_number"])`. -/
def sortBy (le : α → α → Bool) : List α → List α
  | [] => []
  | x :: xs => insertBy le x (sortBy le xs)

namespace RequestMediaGeneration

/-- Job-level `master_prompt_context` map propagated into every scene. -/
structure MasterContext where
  voice_style : Option String := none
  speech_speed : Option Rat := none
deriving DecidableEq, Repr, Inhabited

/-- One element of the `scenes` array of the parsed AI script, with every
field optional exactly as `dict.get` treats it. -/
structure RawScene where
  scene_number : Option Nat := none
  duration_seconds : Option Nat := none
  visual_description : Option String := none
  voiceover : Option String := none
  positive_prompt : Option String := none
  negative_prompt : Option String := none
deriving DecidableEq, Repr, Inhabited

/-- Scene dict produced by `extract_scenes`: every key is always present
(`duration` is kept optional because downstream `scene.get("duration", d)`
reads it as a dict key, but `extract_scenes` always fills it). -/
structure SceneData where
  scene_number : Nat
  duration : Option Nat
  visual_description : String
  voiceover : String
  positive_prompt : String
  negative_prompt : String
  master_prompt_context : MasterContext
deriving DecidableEq, Repr, Inhabited

/-- The structure handed to `extract_scenes` after JSON parsing and markdown
fence stripping: a dict that may or may not carry a `scenes` array, or a
non-dict value. -/
inductive ParsedInput where
  | dict (scenes : Option (List RawScene)) (master_prompt_context : Option MasterContext)
  | nonDict
deriving DecidableEq, Repr, Inhabited

/-- Whether `isinstance(parsed, dict) and "scenes" in parsed` holds. -/
def hasScenesKey : ParsedInput → Bool
  | .dict (some _) _ => true
  | _ => false

/-- The per-element mapping of `extract_scenes`: field-by-field defaults,
`idx + 1` for a missing scene number, 10 seconds for a missing duration,
`visual_description` as the fallback for `positive_prompt`. -/
def sceneFromRaw (mpc : MasterContext) (idx : Nat) (s : RawScene) : SceneData :=
  { scene_number := s.scene_number.getD (idx + 1)
    duration := some (s.duration_seconds.getD 10)
    visual_description := s.visual_description.getD ""
    voiceover := s.voiceover.getD ""
    positive_prompt := s.positive_prompt.getD (s.visual_description.getD "")
    negative_prompt := s.negative_prompt.getD ""
    master_prompt_context := mpc }

/-- Index-carrying loop of `for idx, scene in enumerate(raw_scenes)`. -/
def sceneLoop (mpc : MasterContext) : Nat → List RawScene → List SceneData
  | _, [] => []
  | idx, s :: rest => sceneFromRaw mpc idx s :: sceneLoop mpc (idx + 1) rest

/-- `extract_scenes`: the structured branch returns the mapped scene list; a
parsed value without a `scenes` key raises `ValueError("Response missing
scenes key")` with no fallback path. -/
def extract_scenes : ParsedInput → Except String (List SceneData)
  | .dict (some raws) mpc => .ok (sceneLoop (mpc.getD {}) 0 raws)
  | .dict none _ => .error "Response missing scenes key"
  | .nonDict => .error "Response missing scenes key"

/-- Payload built by `get_video_request`. -/
structure VideoRequest where
  model : String
  prompt : String
  aspect_ratio : String
  resolution : Option String := none
  duration : Nat
  camera_fixed : Option Bool := none
  seed : Option Int := none
deriving DecidableEq, Repr, Inhabited

/-- `get_video_request`: short-form uses the seedance model, vertical aspect
ratio, 480p, `scene.get("duration", 5)`; regular uses hailuo, horizontal,
`scene.get("duration", 10)`. -/
def get_video_request (scene : SceneData) (video_type : String) (master_prompt : String) :
    VideoRequest :=
  let scene_description := stripStr (scene.positive_prompt ++ " " ++ master_prompt)
  if video_type == "short" then
    { model := "fal-ai/bytedance/seedance/v1/pro/text-to-video"
      prompt := scene_description
      aspect_ratio := "9:16"
      resolution := some "480p"
      duration := scene.duration.getD 5
      camera_fixed := some false
      seed := some (-1) }
  else
    { model := "fal-ai/minimax/hailuo-02/standard/text-to-video"
      prompt := scene_description
      aspect_ratio := "16:9"
      duration := scene.duration.getD 10 }

/-- `get_voice_setting`: fixed enumeration keyed by `voice_style`, default
`hf_alpha`. -/
def get_voice_setting (scene : SceneData) : String :=
  let vs := scene.master_prompt_context.voice_style.getD "female_alpha"
  if vs == "female_alpha" then "hf_alpha"
  else if vs == "female_beta" then "hf_beta"
  else if vs == "male_omega" then "hm_omega"
  else if vs == "male_psi" then "hm_psi"
  else "hf_alpha"

/-- `get_speed_setting`: `speech_speed` with default 1.0. -/
def get_speed_setting (scene : SceneData) : Rat :=
  scene.master_prompt_context.speech_speed.getD 1

/-- Payload of `call_audio_api` built by `generate_audio`. -/
structure AudioRequest where
  prompt : String
  voice : String
  speed : Rat
deriving DecidableEq, Repr, Inhabited

/-- Black-box outcome of one inference call: either the awaited handler raised,
or it returned a terminal result that does or does not carry a result URL,
followed by a download-and-reupload that succeeds or fails. -/
inductive ApiOutcome where
  | exn (e : String)
  | result (hasUrl : Bool) (downloadOk : Bool)
deriving DecidableEq, Repr, Inhabited

/-- Dict returned by `call_video_api` / `call_audio_api` (the fields the
callers read: merged `success`, the stored key, the error). -/
structure ApiCallResult where
  success : Bool
  s3_key : Option String := none
  error : Option String := none
deriving DecidableEq, Repr, Inhabited

/-- Deterministic storage key for a video fragment:
`generated-videos/{job_id}/scene_{number:02d}.mp4`. -/
def videoS3Key (job_id : String) (scene_number : Nat) : String :=
  "generated-videos/" ++ job_id ++ "/scene_" ++ pad2 scene_number ++ ".mp4"

/-- Deterministic storage key for an audio fragment:
`generated-audio/{job_id}/scene_{number:02d}.wav`. -/
def audioS3Key (job_id : String) (scene_number : Nat) : String :=
  "generated-audio/" ++ job_id ++ "/scene_" ++ pad2 scene_number ++ ".wav"

/-- `call_video_api`: an exception is caught and reported as a failure dict; a
result without a URL is a failure dict with the raw result attached; a URL is
downloaded and re-uploaded to the deterministic key, and the merged dict's
`success` is the download's `success`. -/
def call_video_api (_req : VideoRequest) (job_id : String) (scene_number : Nat) :
    ApiOutcome → ApiCallResult
  | .exn e => { success := false, error := some ("API call failed: " ++ e) }
  | .result hasUrl downloadOk =>
    if hasUrl then
      if downloadOk then
        { success := true, s3_key := some (videoS3Key job_id scene_number) }
      else
        { success := false, error := some "S3 upload failed" }
    else
      { success := false, error := some "No video URL in response" }

/-- `call_audio_api`, same shape as the video variant with the audio key. -/
def call_audio_api (_req : AudioRequest) (job_id : String) (scene_number : Nat) :
    ApiOutcome → ApiCallResult
  | .exn e => { success := false, error := some ("API call failed: " ++ e) }
  | .result hasUrl downloadOk =>
    if hasUrl then
      if downloadOk then
        { success := true, s3_key := some (audioS3Key job_id scene_number) }
      else
        { success := false, error := some "S3 upload failed" }
    else
      { success := false, error := some "No audio URL in response" }

/-- Per-scene outcome dict (the fields the claims read). -/
structure FragResult where
  scene_index : Nat
  scene_number : Nat
  status : String
  error : Option String := none
  message : Option String := none
  s3_key : Option String := none
deriving DecidableEq, Repr, Inhabited

/-- `generate_video`: builds the request, calls the API, and reports
`success` or `failed` by the merged `success` flag; its own `except` block
turns any raised exception into a `failed` result, never a propagated one. -/
def generate_video (scene : SceneData) (scene_index : Nat)
    (job_id video_type master_prompt : String) (api : ApiOutcome) : FragResult :=
  let req := get_video_request scene video_type master_prompt
  let vr := call_video_api req job_id scene.scene_number api
  { scene_index := scene_index
    scene_number := scene.scene_number
    status := if vr.success then "success" else "failed"
    error := vr.error
    s3_key := vr.s3_key }

/-- `generate_audio`: blank (empty or whitespace-only) voiceover text short
circuits to a `skipped` result before any API call; otherwise the API is
called exactly once and the result is `success` or `failed`.  The boolean
reports whether the external call was made. -/
def generate_audio (scene : SceneData) (scene_index : Nat) (job_id : String)
    (api : ApiOutcome) : FragResult × Bool :=
  let voiceover_text := scene.voiceover
  if isBlank voiceover_text then
    ({ scene_index := scene_index
       scene_number := scene.scene_number
       status := "skipped"
       message := some "No voiceover text" }, false)
  else
    let req : AudioRequest :=
      { prompt := voiceover_text
        voice := get_voice_setting scene
        speed := get_speed_setting scene }
    let ar := call_audio_api req job_id scene.scene_number api
    ({ scene_index := scene_index
       scene_number := scene.scene_number
       status := if ar.success then "success" else "failed"
       error := ar.error
       s3_key := ar.s3_key }, true)

/-- Index-carrying loop of `for i, result in enumerate(results)`: an exception
in the gathered list becomes a `failed` entry carrying the loop index and the
scene's number; every other result is appended unchanged.  Call sites pass
`results` of the same length as `scenes`, so the `scenes[i]` lookup is total
there. -/
def process_results_loop (scenes : List SceneData) :
    Nat → List (Except String FragResult) → List FragResult
  | _, [] => []
  | i, .error e :: rest =>
    { scene_index := i
      scene_number := ((scenes.get? i).map SceneData.scene_number).getD (i + 1)
      status := "failed"
      error := some e } :: process_results_loop scenes (i + 1) rest
  | i, .ok r :: rest => r :: process_results_loop scenes (i + 1) rest

/-- `process_results`. -/
def process_results (results : List (Except String FragResult))
    (scenes : List SceneData) : List FragResult :=
  process_results_loop scenes 0 results

/-- Index-carrying task construction `[task(scene, i) for i, scene in
enumerate(scenes)]`, gathered in dispatch order (`asyncio.gather` preserves
the order of its arguments). -/
def gatherTasks (f : Nat → SceneData → Except String FragResult) :
    Nat → List SceneData → List (Except String FragResult)
  | _, [] => []
  | i, s :: rest => f i s :: gatherTasks f (i + 1) rest

/-- What `generate_media` returns, together with how many audio tasks were
created and how many audio inference calls were issued. -/
structure MediaGenOutput where
  video_results : List FragResult
  audio_results : List FragResult
  audio_tasks_launched : Nat
  audio_api_calls : Nat
deriving DecidableEq, Repr, Inhabited

/-- Count of the audio tasks that reached the external call. -/
def audioCallsLoop (job_id : String) (aapi : Nat → ApiOutcome) :
    Nat → List SceneData → Nat
  | _, [] => 0
  | i, s :: rest =>
    (if (generate_audio s i job_id (aapi i)).2 then 1 else 0) +
      audioCallsLoop job_id aapi (i + 1) rest

/-- `generate_media`: one video task per scene; for `video_type == "short"`
audio tasks are never created and the audio result list is `[]`; otherwise one
audio task per scene.  `vapi`/`aapi` are the per-index inference oracles,
`vexn`/`aexn` inject a task-level exception as observed by
`asyncio.gather(..., return_exceptions=True)`. -/
def generate_media (scenes : List SceneData) (job_id video_type master_prompt : String)
    (vapi aapi : Nat → ApiOutcome) (vexn aexn : Nat → Option String) : MediaGenOutput :=
  let video_outcomes := gatherTasks
    (fun i s =>
      match vexn i with
      | some e => .error e
      | none => .ok (generate_video s i job_id video_type master_prompt (vapi i)))
    0 scenes
  if video_type == "short" then
    { video_results := process_results video_outcomes scenes
      audio_results := []
      audio_tasks_launched := 0
      audio_api_calls := 0 }
  else
    let audio_outcomes := gatherTasks
      (fun i s =>
        match aexn i with
        | some e => .error e
        | none => .ok (generate_audio s i job_id (aapi i)).1)
      0 scenes
    { video_results := process_results video_outcomes scenes
      audio_results := process_results audio_outcomes scenes
      audio_tasks_launched := scenes.length
      audio_api_calls := audioCallsLoop job_id aapi 0 scenes }

/-- The success tallies of the job summary written by `store_results`. -/
structure JobSummary where
  total_scenes : Nat
  successful_videos : Nat
  successful_audio : Nat
deriving DecidableEq, Repr, Inhabited

/-- `len([r for r in results if r.get("status") == "success"])`. -/
def successCount (results : List FragResult) : Nat :=
  (results.filter (fun r => r.status == "success")).length

/-- The counting part of `store_results`: only `success` entries are tallied;
there is no failure tally and no branch on `skipped`. -/
def store_results (video_results audio_results : List FragResult) : JobSummary :=
  { total_scenes := video_results.length
    successful_videos := successCount video_results
    successful_audio := successCount audio_results }

/-- The lambda environment variables read by `trigger_next_step`. -/
structure TriggerEnv where
  youtube_fn : Option String := none
  compose_fn : Option String := none
deriving DecidableEq, Repr, Inhabited

/-- One fire-and-forget `lambda_client.invoke`. -/
structure Invocation where
  target : String
  payload_job : String
  payload_video_type : Option String := none
deriving DecidableEq, Repr, Inhabited

/-- `trigger_next_step`: shorts invoke the YouTube upload function directly
(with `video_type = "short"` added to the payload), every other type invokes
the compose function; a missing function name is logged and nothing is
invoked. -/
def trigger_next_step (job_id : String) (video_type : String) (env : TriggerEnv) :
    List Invocation :=
  if video_type == "short" then
    match env.youtube_fn with
    | some fn => [{ target := fn, payload_job := job_id, payload_video_type := some "short" }]
    | none => []
  else
    match env.compose_fn with
    | some fn => [{ target := fn, payload_job := job_id }]
    | none => []

/-- Modelled from the spec: the wiring that invokes the Publisher when the
composition stage completes is infrastructure configuration of this Terraform
repository and is not among the Python sources under `src/` (the compositor
module itself performs no invocation, and the upload module documents being
triggered after composition completes).  Per the spec's Completion Trigger
contract, `stage = composition` invokes the Publisher exactly once. -/
def composition_complete_trigger (job_id : String) (env : TriggerEnv) : List Invocation :=
  match env.youtube_fn with
  | some fn => [{ target := fn, payload_job := job_id }]
  | none => []

end RequestMediaGeneration

namespace ComposeMedia

/-- The coordination-record attributes the compositor reads and writes
(DynamoDB string reads default to `""` for absent attributes). -/
structure JobRecord where
  video_audio_status : String := ""
  composition_status : String := ""
  video_type : String := ""
  final_video_url : Option String := none
deriving DecidableEq, Repr, Inhabited

/-- The S3 bucket as seen by the compositor.  Fragment keys live under the
`generated-audio/` and `generated-videos/` prefixes in `objects`; the
`final-videos/` namespace is disjoint from both, so the final-video keys are
held in `finalKeys`.  `uploadCount` counts `upload_file` calls. -/
structure S3State where
  objects : List String
  finalKeys : List String := []
  uploadCount : Nat := 0
deriving DecidableEq, Repr, Inhabited

/-- Overwrite-on-put: a key already present is overwritten in place, never
duplicated. -/
def putKey (keys : List String) (k : String) : List String :=
  if keys.contains k then keys else k :: keys

/-- `check_both_ready`: a missing record is not ready; otherwise ready exactly
when `video_audio_status == "complete"`.  `composition_status` is never
consulted. -/
def check_both_ready (record : Option JobRecord) : Bool :=
  match record with
  | none => false
  | some item => item.video_audio_status == "complete"

/-- Single-field `SET` of `update_item`, dispatched on the attribute name
exactly as the f-string update expression does. -/
def setField (r : JobRecord) (field value : String) : JobRecord :=
  if field == "composition_status" then { r with composition_status := value }
  else if field == "video_audio_status" then { r with video_audio_status := value }
  else if field == "final_video_url" then { r with final_video_url := some value }
  else r

/-- `update_job_coordination_status`: DynamoDB `update_item` upserts, creating
the item with only the written attribute when absent. -/
def update_job_coordination_status (record : Option JobRecord) (field value : String) :
    Option JobRecord :=
  some (setField (record.getD {}) field value)

/-- One downloaded fragment entry of `download_media_files`. -/
structure MediaFile where
  scene_number : Nat
  filename : String
  s3_key : String
deriving DecidableEq, Repr, Inhabited

/-- `extract_scene_number`: first `scene_` followed by at least one digit, the
maximal digit run captured; `None` when no such pattern occurs. -/
def findSceneNum : List Char → Option Nat
  | [] => none
  | c :: rest =>
    if "scene_".toList.isPrefixOf (c :: rest) then
      let ds := ((c :: rest).drop 6).takeWhile Char.isDigit
      if ds.isEmpty then findSceneNum rest else some (natFromDigits ds)
    else
      findSceneNum rest

/-- `extract_scene_number` on a filename. -/
def extract_scene_number (filename : String) : Option Nat :=
  findSceneNum filename.toList

/-- `download_media_files`: list the bucket under `{folder}/{job_id}/`, parse
the scene number out of each basename, and skip (with a warning) any file
whose name has no parseable number. -/
def download_media_files (job_id folder : String) (objects : List String) :
    List MediaFile :=
  let pfx := folder ++ "/" ++ job_id ++ "/"
  (objects.filter (fun k => strStarts k pfx)).filterMap (fun k =>
    let filename : String := ⟨baseNameChars k.toList⟩
    match extract_scene_number filename with
    | none => none
    | some n => some { scene_number := n, filename := filename, s3_key := k })

/-- Local path of the final output file. -/
def final_video_path (job_id : String) : String :=
  "/tmp/final_video_" ++ job_id ++ ".mp4"

/-- `process_scenes_sequentially`: fatal mismatch when the audio and video
counts disagree, fatal when there is nothing to process; the single-scene path
muxes directly to the final output, the multi-scene path muxes each scene and
concatenates.  Every ffmpeg subprocess is abstracted by the `ffmpegOk` oracle:
a non-zero exit or missing output raises. -/
def process_scenes_sequentially (audio_files video_files : List MediaFile)
    (job_id : String) (ffmpegOk : Bool) : Except String String :=
  if audio_files.length != video_files.length then
    .error ("Mismatch: " ++ toString audio_files.length ++ " audio files vs " ++
      toString video_files.length ++ " video files")
  else if audio_files.length == 0 then
    .error "No scenes to process"
  else if audio_files.length == 1 then
    if ffmpegOk then .ok (final_video_path job_id) else .error "FFmpeg failed"
  else
    if ffmpegOk then .ok (final_video_path job_id) else .error "FFmpeg failed"

/-- Deterministic final key `final-videos/{job_id}/final_video.mp4`. -/
def final_video_key (job_id : String) : String :=
  "final-videos/" ++ job_id ++ "/final_video.mp4"

/-- `upload_final_video`: put the final file at the deterministic key and
return its URL. -/
def upload_final_video (job_id : String) (s3 : S3State) : String × S3State :=
  let key := final_video_key job_id
  ("https://bucket.s3.amazonaws.com/" ++ key,
   { s3 with finalKeys := putKey s3.finalKeys key, uploadCount := s3.uploadCount + 1 })

/-- `compose_media`: download both fragment sets, fail when either is empty,
sort both by scene number (Python stable sort), run the sequential pipeline
and upload the result. -/
def compose_media (job_id : String) (s3 : S3State) (ffmpegOk : Bool) :
    Except String (String × S3State) :=
  let audio_files := download_media_files job_id "generated-audio" s3.objects
  let video_files := download_media_files job_id "generated-videos" s3.objects
  if audio_files.isEmpty || video_files.isEmpty then
    .error "Missing audio or video files"
  else
    let audio_sorted := sortBy (fun a b => a.scene_number ≤ b.scene_number) audio_files
    let video_sorted := sortBy (fun a b => a.scene_number ≤ b.scene_number) video_files
    match process_scenes_sequentially audio_sorted video_sorted job_id ffmpegOk with
    | .error e => .error e
    | .ok _path => .ok (upload_final_video job_id s3)

/-- Structured status payload returned by the compositor lambda. -/
structure ComposeResponse where
  statusCode : Nat
  message : String
deriving DecidableEq, Repr, Inhabited

/-- The event the compositor lambda is triggered with. -/
structure ComposeEvent where
  job_id : Option String := none
deriving DecidableEq, Repr, Inhabited

/-- The compositor `lambda_handler`: missing or falsy `job_id` is a 400; a
not-ready coordination record returns a non-error waiting response; otherwise
the record is moved to `in_progress`, the media composed and uploaded, and the
record moved to `complete` with the final URL; any raised exception is caught,
the record moved to `failed`, and a 500 returned. -/
def lambda_handler (event : ComposeEvent) (record : Option JobRecord)
    (s3 : S3State) (ffmpegOk : Bool) :
    ComposeResponse × Option JobRecord × S3State :=
  match event.job_id with
  | none => ({ statusCode := 400, message := "job_id is required" }, record, s3)
  | some job_id =>
    if job_id == "" then
      ({ statusCode := 400, message := "job_id is required" }, record, s3)
    else if !check_both_ready record then
      ({ statusCode := 200, message := "Waiting for completion" }, record, s3)
    else
      let record1 := update_job_coordination_status record "composition_status" "in_progress"
      match compose_media job_id s3 ffmpegOk with
      | .ok (url, s3Out) =>
        let record2 := update_job_coordination_status record1 "composition_status" "complete"
        let record3 := update_job_coordination_status record2 "final_video_url" url
        ({ statusCode := 200,
           message := "Successfully composed video for job " ++ job_id },
         record3, s3Out)
      | .error _e =>
        let record2 := update_job_coordination_status record1 "composition_status" "failed"
        ({ statusCode := 500, message := "Composition failed" }, record2, s3)

end ComposeMedia

namespace UploadYoutube

/-- `get_composed_video_s3_key`: shorts look under the raw fragment folder
`generated-videos/{job_id}/` and pick the first `.mp4` whose key contains
`scene_01`; regular jobs look under `composed-videos/{job_id}/` for a key
containing `final` or `composed`; either falls back to the first `.mp4`
listed. -/
def get_composed_video_s3_key (job_id video_type : String) (listing : List String) :
    Option String :=
  let pfx :=
    if video_type == "short" then "generated-videos/" ++ job_id ++ "/"
    else "composed-videos/" ++ job_id ++ "/"
  let contents := listing.filter (fun k => strStarts k pfx)
  if contents.isEmpty then none
  else
    match contents.find? (fun key =>
      if video_type == "short" then
        strEnds key ".mp4" && strContains key "scene_01"
      else
        strEnds key ".mp4" && (strContains key "final" || strContains key "composed")) with
    | some k => some k
    | none => contents.find? (fun key => strEnds key ".mp4")

end UploadYoutube

open RequestMediaGeneration ComposeMedia UploadYoutube

-- Length facts for the stable sort used by `compose_media`.
theorem length_insertBy (le : α → α → Bool) (x : α) (l : List α) :
    (insertBy le x l).length = l.length + 1 := by
  induction l with
  | nil => rfl
  | cons y ys ih => simp only [insertBy]; split <;> simp [ih]

theorem length_sortBy (le : α → α → Bool) (l : List α) :
    (sortBy le l).length = l.length := by
  induction l with
  | nil => rfl
  | cons x xs ih => simp [sortBy, length_insertBy, ih]

-- `compose_media` raises when either downloaded fragment list is empty.
theorem compose_media_missing (job_id : String) (s3 : S3State) (ff : Bool)
    (h : download_media_files job_id "generated-audio" s3.objects = [] ∨
         download_media_files job_id "generated-videos" s3.objects = []) :
    compose_media job_id s3 ff = .error "Missing audio or video files" := by
  rcases h with h | h <;> simp [compose_media, h]

-- `compose_media` raises the scene-count mismatch when both lists are
-- nonempty but their lengths disagree (sorting preserves length).
theorem compose_media_mismatch (job_id : String) (s3 : S3State) (ff : Bool)
    (ha : download_media_files job_id "generated-audio" s3.objects ≠ [])
    (hv : download_media_files job_id "generated-videos" s3.objects ≠ [])
    (hlen : (download_media_files job_id "generated-audio" s3.objects).length ≠
            (download_media_files job_id "generated-videos" s3.objects).length) :
    compose_media job_id s3 ff = .error ("Mismatch: " ++
      toString (download_media_files job_id "generated-audio" s3.objects).length ++
      " audio files vs " ++
      toString (download_media_files job_id "generated-videos" s3.objects).length ++
      " video files") := by
  simp [compose_media, ha, hv, process_scenes_sequentially, length_sortBy, hlen]

-- With matching nonempty fragment lists and a successful ffmpeg run,
-- `compose_media` uploads the final video and returns its URL.
theorem compose_media_ok (job_id : String) (s3 : S3State)
    (ha : download_media_files job_id "generated-audio" s3.objects ≠ [])
    (hv : download_media_files job_id "generated-videos" s3.objects ≠ [])
    (hlen : (download_media_files job_id "generated-audio" s3.objects).length =
            (download_media_files job_id "generated-videos" s3.objects).length) :
    compose_media job_id s3 true = .ok (upload_final_video job_id s3) := by
  have hA : (download_media_files job_id "generated-audio" s3.objects).length ≠ 0 := by
    simpa [List.length_eq_zero] using ha
  simp [compose_media, ha, hv, process_scenes_sequentially, length_sortBy, hlen, hA]

-- The compositor lambda returns the waiting no-op exactly on a not-ready record.
theorem lambda_handler_not_ready (job_id : String) (record : Option JobRecord)
    (s3 : S3State) (ff : Bool) (hjob : job_id ≠ "")
    (h : check_both_ready record = false) :
    ComposeMedia.lambda_handler { job_id := some job_id } record s3 ff =
      ({ statusCode := 200, message := "Waiting for completion" }, record, s3) := by
  have h1 : (job_id == "") = false := beq_eq_false_iff_ne.mpr hjob
  simp [ComposeMedia.lambda_handler, h1, h]

-- The compositor lambda on a ready record and a raising pipeline: 500,
-- `composition_status = failed`, S3 untouched.
theorem lambda_handler_ready_error (job_id : String) (r : JobRecord)
    (s3 : S3State) (ff : Bool) (e : String) (hjob : job_id ≠ "")
    (hready : r.video_audio_status = "complete")
    (hcm : compose_media job_id s3 ff = .error e) :
    ComposeMedia.lambda_handler { job_id := some job_id } (some r) s3 ff =
      ({ statusCode := 500, message := "Composition failed" },
       some { r with composition_status := "failed" }, s3) := by
  have h1 : (job_id == "") = false := beq_eq_false_iff_ne.mpr hjob
  simp [ComposeMedia.lambda_handler, h1, check_both_ready, hready, hcm,
    update_job_coordination_status, setField]

-- The compositor lambda on a ready record and a successful pipeline.
theorem lambda_handler_ready_ok (job_id : String) (r : JobRecord)
    (s3 : S3State) (ff : Bool) (url : String) (s3Out : S3State) (hjob : job_id ≠ "")
    (hready : r.video_audio_status = "complete")
    (hcm : compose_media job_id s3 ff = .ok (url, s3Out)) :
    ComposeMedia.lambda_handler { job_id := some job_id } (some r) s3 ff =
      ({ statusCode := 200, message := "Successfully composed video for job " ++ job_id },
       some { r with composition_status := "complete", final_video_url := some url }, s3Out) := by
  have h1 : (job_id == "") = false := beq_eq_false_iff_ne.mpr hjob
  simp [ComposeMedia.lambda_handler, h1, check_both_ready, hready, hcm,
    update_job_coordination_status, setField]

/-- Claim C2: for a regular job whose downloaded audio and video fragment
counts disagree, the compositor raises a fatal error (the scene-count
mismatch whenever both lists are nonempty, so the longer list is never
silently zip-truncated), writes `composition_status = "failed"`, and uploads
no final video (the S3 state is unchanged). -/
theorem compositor_mismatch_is_fatal (job_id : String) (r : JobRecord)
    (s3 : S3State) (ff : Bool) (hjob : job_id ≠ "")
    (hready : r.video_audio_status = "complete")
    (hlen : (download_media_files job_id "generated-audio" s3.objects).length ≠
            (download_media_files job_id "generated-videos" s3.objects).length) :
    (ComposeMedia.lambda_handler { job_id := some job_id } (some r) s3 ff).1.statusCode = 500
    ∧ (ComposeMedia.lambda_handler { job_id := some job_id } (some r) s3 ff).2.1 =
        some { r with composition_status := "failed" }
    ∧ (ComposeMedia.lambda_handler { job_id := some job_id } (some r) s3 ff).2.2 = s3
    ∧ (download_media_files job_id "generated-audio" s3.objects ≠ [] →
       download_media_files job_id "generated-videos" s3.objects ≠ [] →
       compose_media job_id s3 ff = .error ("Mismatch: " ++
         toString (download_media_files job_id "generated-audio" s3.objects).length ++
         " audio files vs " ++
         toString (download_media_files job_id "generated-videos" s3.objects).length ++
         " video files")) := by
  have hcm : ∃ e, compose_media job_id s3 ff = .error e := by
    by_cases ha : download_media_files job_id "generated-audio" s3.objects = []
    · exact ⟨_, compose_media_missing job_id s3 ff (Or.inl ha)⟩
    · by_cases hv : download_media_files job_id "generated-videos" s3.objects = []
      · exact ⟨_, compose_media_missing job_id s3 ff (Or.inr hv)⟩
      · exact ⟨_, compose_media_mismatch job_id s3 ff ha hv hlen⟩
  obtain ⟨e, hcm⟩ := hcm
  have hmain := lambda_handler_ready_error job_id r s3 ff e hjob hready hcm
  refine ⟨by rw [hmain], by rw [hmain], by rw [hmain], fun ha hv => ?_⟩
  exact compose_media_mismatch job_id s3 ff ha hv hlen

/-- Claim C2 witness: 2 audio fragments against 3 video fragments on a ready
record fail the whole job with a 500. -/
theorem compositor_mismatch_is_fatal_witness :
    ("j2" : String) ≠ ""
    ∧ (ComposeMedia.lambda_handler { job_id := some "j2" }
        (some { video_audio_status := "complete", composition_status := "pending" })
        { objects := ["generated-audio/j2/scene_01.wav", "generated-audio/j2/scene_02.wav",
                      "generated-videos/j2/scene_01.mp4", "generated-videos/j2/scene_02.mp4",
                      "generated-videos/j2/scene_03.mp4"] } true).1.statusCode = 500 := by
  refine ⟨by decide, ?_⟩
  exact (compositor_mismatch_is_fatal "j2"
    { video_audio_status := "complete", composition_status := "pending" }
    { objects := ["generated-audio/j2/scene_01.wav", "generated-audio/j2/scene_02.wav",
                  "generated-videos/j2/scene_01.mp4", "generated-videos/j2/scene_02.mp4",
                  "generated-videos/j2/scene_03.mp4"] } true (by decide) rfl (by decide)).1

/-- Claim C10: for a regular job where either downloaded fragment list is
empty, `compose_media` raises (`Missing audio or video files`), the job fails
with `composition_status = "failed"`, and nothing is uploaded — there is no
audio-less composition path at the public interface. -/
theorem compositor_empty_media_is_fatal (job_id : String) (r : JobRecord)
    (s3 : S3State) (ff : Bool) (hjob : job_id ≠ "")
    (hready : r.video_audio_status = "complete")
    (hempty : download_media_files job_id "generated-audio" s3.objects = [] ∨
              download_media_files job_id "generated-videos" s3.objects = []) :
    compose_media job_id s3 ff = .error "Missing audio or video files"
    ∧ (ComposeMedia.lambda_handler { job_id := some job_id } (some r) s3 ff).1.statusCode = 500
    ∧ (ComposeMedia.lambda_handler { job_id := some job_id } (some r) s3 ff).2.1 =
        some { r with composition_status := "failed" }
    ∧ (ComposeMedia.lambda_handler { job_id := some job_id } (some r) s3 ff).2.2 = s3 := by
  have hcm := compose_media_missing job_id s3 ff hempty
  have hmain := lambda_handler_ready_error job_id r s3 ff _ hjob hready hcm
  exact ⟨hcm, by rw [hmain], by rw [hmain], by rw [hmain]⟩

/-- Claim C10 witness: a job with video fragments but no audio fragments
fails composition with a 500. -/
theorem compositor_empty_media_is_fatal_witness :
    (ComposeMedia.lambda_handler { job_id := some "j3" }
      (some { video_audio_status := "complete" })
      { objects := ["generated-videos/j3/scene_01.mp4"] } true).1.statusCode = 500 :=
  (compositor_empty_media_is_fatal "j3" { video_audio_status := "complete" }
    { objects := ["generated-videos/j3/scene_01.mp4"] } true (by decide) rfl
    (Or.inl (by decide))).2.1


-- Overwrite-on-put facts for the final-video key.
theorem putKey_count_self (keys : List String) (k : String) (h : k ∉ keys) :
    (putKey keys k).count k = 1 := by
  simp [putKey, h, List.count_cons, List.count_eq_zero.mpr h]

theorem putKey_mem (keys : List String) (k : String) : k ∈ putKey keys k := by
  by_cases h : k ∈ keys <;> simp [putKey, h]

theorem putKey_already (keys : List String) (k : String) (h : k ∈ keys) :
    putKey keys k = keys := by
  simp [putKey, h]

theorem upload_final_video_eq (job_id : String) (s3 : S3State) :
    upload_final_video job_id s3 =
      ("https://bucket.s3.amazonaws.com/" ++ final_video_key job_id,
       { s3 with finalKeys := putKey s3.finalKeys (final_video_key job_id),
                 uploadCount := s3.uploadCount + 1 }) := rfl

/-- Claim C1 counterexample: with `video_audio_status = "complete"` and one
matching fragment pair present, the second of two immediately successive
compositor invocations does NOT return the waiting/already-done no-op — it
composes and uploads a second time (`uploadCount = 2`), because
`check_both_ready` never consults `composition_status`. -/
theorem compositor_second_trigger_not_noop :
    (ComposeMedia.lambda_handler { job_id := some "j1" }
      (ComposeMedia.lambda_handler { job_id := some "j1" }
        (some { video_audio_status := "complete", composition_status := "pending" })
        { objects := ["generated-audio/j1/scene_01.wav", "generated-videos/j1/scene_01.mp4"] } true).2.1
      (ComposeMedia.lambda_handler { job_id := some "j1" }
        (some { video_audio_status := "complete", composition_status := "pending" })
        { objects := ["generated-audio/j1/scene_01.wav", "generated-videos/j1/scene_01.mp4"] } true).2.2
      true).1.message ≠ "Waiting for completion"
    ∧ (ComposeMedia.lambda_handler { job_id := some "j1" }
      (ComposeMedia.lambda_handler { job_id := some "j1" }
        (some { video_audio_status := "complete", composition_status := "pending" })
        { objects := ["generated-audio/j1/scene_01.wav", "generated-videos/j1/scene_01.mp4"] } true).2.1
      (ComposeMedia.lambda_handler { job_id := some "j1" }
        (some { video_audio_status := "complete", composition_status := "pending" })
        { objects := ["generated-audio/j1/scene_01.wav", "generated-videos/j1/scene_01.mp4"] } true).2.2
      true).2.2.uploadCount = 2 := by
  constructor
  · decide
  · decide

/-- Claim C1 (amended): duplicate triggers never yield two published
artifacts, but not through an already-done no-op.  Once the record is ready, a
second invocation composes and uploads again (uploadCount rises by two), yet
both writes target the single deterministic key
`final-videos/{job_id}/final_video.mp4`, so exactly one published artifact
exists; the waiting no-op is returned exactly when the readiness check on
`video_audio_status` fails. -/
theorem compositor_duplicate_trigger (job_id : String) (r : JobRecord) (s3 : S3State)
    (hjob : job_id ≠ "") (hready : r.video_audio_status = "complete")
    (ha : download_media_files job_id "generated-audio" s3.objects ≠ [])
    (hv : download_media_files job_id "generated-videos" s3.objects ≠ [])
    (hlen : (download_media_files job_id "generated-audio" s3.objects).length =
            (download_media_files job_id "generated-videos" s3.objects).length)
    (hfresh : final_video_key job_id ∉ s3.finalKeys) :
    (ComposeMedia.lambda_handler { job_id := some job_id } (some r) s3 true).1.statusCode = 200
    ∧ (ComposeMedia.lambda_handler { job_id := some job_id }
        (ComposeMedia.lambda_handler { job_id := some job_id } (some r) s3 true).2.1
        (ComposeMedia.lambda_handler { job_id := some job_id } (some r) s3 true).2.2 true).1 =
      { statusCode := 200, message := "Successfully composed video for job " ++ job_id }
    ∧ (ComposeMedia.lambda_handler { job_id := some job_id }
        (ComposeMedia.lambda_handler { job_id := some job_id } (some r) s3 true).2.1
        (ComposeMedia.lambda_handler { job_id := some job_id } (some r) s3 true).2.2 true).2.2.uploadCount =
      s3.uploadCount + 2
    ∧ (ComposeMedia.lambda_handler { job_id := some job_id }
        (ComposeMedia.lambda_handler { job_id := some job_id } (some r) s3 true).2.1
        (ComposeMedia.lambda_handler { job_id := some job_id } (some r) s3 true).2.2 true).2.2.finalKeys.count
        (final_video_key job_id) = 1
    ∧ (∀ (rec : Option JobRecord) (s0 : S3State), check_both_ready rec = false →
        ComposeMedia.lambda_handler { job_id := some job_id } rec s0 true =
          ({ statusCode := 200, message := "Waiting for completion" }, rec, s0)) := by
  have hcm1 : compose_media job_id s3 true =
      .ok ("https://bucket.s3.amazonaws.com/" ++ final_video_key job_id,
        { s3 with finalKeys := putKey s3.finalKeys (final_video_key job_id),
                  uploadCount := s3.uploadCount + 1 }) := by
    rw [compose_media_ok job_id s3 ha hv hlen, upload_final_video_eq]
  have h1 := lambda_handler_ready_ok job_id r s3 true _ _ hjob hready hcm1
  have hcm2 : compose_media job_id
      { s3 with finalKeys := putKey s3.finalKeys (final_video_key job_id),
                uploadCount := s3.uploadCount + 1 } true =
      .ok ("https://bucket.s3.amazonaws.com/" ++ final_video_key job_id,
        { s3 with finalKeys := putKey (putKey s3.finalKeys (final_video_key job_id)) (final_video_key job_id),
                  uploadCount := s3.uploadCount + 1 + 1 }) := by
    have hstep := compose_media_ok job_id
      { s3 with finalKeys := putKey s3.finalKeys (final_video_key job_id),
                uploadCount := s3.uploadCount + 1 } ha hv hlen
    rw [hstep, upload_final_video_eq]
  have h2 := lambda_handler_ready_ok job_id
    { r with composition_status := "complete",
             final_video_url := some ("https://bucket.s3.amazonaws.com/" ++ final_video_key job_id) }
    _ true _ _ hjob hready hcm2
  rw [h1]
  refine ⟨rfl, ?_, ?_, ?_, fun rec s0 h => lambda_handler_not_ready job_id rec s0 true hjob h⟩
  · rw [h2]
  · rw [h2]
  · rw [h2]
    simp only [putKey_already _ _ (putKey_mem s3.finalKeys (final_video_key job_id))]
    exact putKey_count_self s3.finalKeys (final_video_key job_id) hfresh

/-- Claim C1 witness: the concrete double-trigger run keeps exactly one
published final-video key. -/
theorem compositor_duplicate_trigger_witness :
    (ComposeMedia.lambda_handler { job_id := some "j1" }
      (ComposeMedia.lambda_handler { job_id := some "j1" }
        (some { video_audio_status := "complete", composition_status := "pending" })
        { objects := ["generated-audio/j1/scene_01.wav", "generated-videos/j1/scene_01.mp4"] } true).2.1
      (ComposeMedia.lambda_handler { job_id := some "j1" }
        (some { video_audio_status := "complete", composition_status := "pending" })
        { objects := ["generated-audio/j1/scene_01.wav", "generated-videos/j1/scene_01.mp4"] } true).2.2
      true).2.2.finalKeys.count (final_video_key "j1") = 1 :=
  (compositor_duplicate_trigger "j1"
    { video_audio_status := "complete", composition_status := "pending" }
    { objects := ["generated-audio/j1/scene_01.wav", "generated-videos/j1/scene_01.mp4"] }
    (by decide) rfl (by decide) (by decide) (by decide) (by decide)).2.2.2.1

-- Task list construction preserves length.
theorem gatherTasks_length (f : Nat → SceneData → Except String FragResult) :
    ∀ (k : Nat) (scenes : List SceneData), (gatherTasks f k scenes).length = scenes.length
  | _, [] => rfl
  | k, _ :: rest => by
    simp [gatherTasks, gatherTasks_length f (k + 1) rest]

-- `process_results` preserves length.
theorem process_results_loop_length (scenes : List SceneData) :
    ∀ (k : Nat) (rs : List (Except String FragResult)),
      (process_results_loop scenes k rs).length = rs.length
  | _, [] => rfl
  | k, .error _ :: rest => by
    simp [process_results_loop, process_results_loop_length scenes (k + 1) rest]
  | k, .ok _ :: rest => by
    simp [process_results_loop, process_results_loop_length scenes (k + 1) rest]

-- A gathered result that is not an exception passes through `process_results`
-- unchanged at its position.
theorem process_results_loop_ok_get (scenes : List SceneData) :
    ∀ (k : Nat) (rs : List (Except String FragResult)) (j : Nat) (r : FragResult),
      rs[j]? = some (.ok r) →
      (process_results_loop scenes k rs)[j]? = some r := by
  intro k rs
  induction rs generalizing k with
  | nil => intro j r h; simp at h
  | cons x rest ih =>
    intro j r h
    match j with
    | 0 =>
      simp at h
      subst h
      simp [process_results_loop]
    | Nat.succ j' =>
      simp at h
      cases x with
      | error e => simpa [process_results_loop] using ih (k + 1) j' r h
      | ok fr => simpa [process_results_loop] using ih (k + 1) j' r h

-- Position-wise characterisation of `process_results` over the gathered task
-- list: entry `j` comes from scene `j`, either converted from that task's
-- exception or passed through unchanged.
theorem process_gather_spec (g : Nat → SceneData → Except String FragResult)
    (scenes_all : List SceneData) :
    ∀ (suffix : List SceneData) (k : Nat),
      (∀ j, suffix[j]? = scenes_all[k + j]?) →
      ∀ (j : Nat) (r : FragResult),
        (process_results_loop scenes_all k (gatherTasks g k suffix))[j]? = some r →
        ∃ s, scenes_all[k + j]? = some s ∧
          ((∃ e, g (k + j) s = .error e ∧
              r = { scene_index := k + j, scene_number := s.scene_number,
                    status := "failed", error := some e }) ∨
           g (k + j) s = .ok r) := by
  intro suffix
  induction suffix with
  | nil =>
    intro k _ j r h
    simp [gatherTasks, process_results_loop] at h
  | cons s rest ih =>
    intro k hsuf j r h
    have hk : scenes_all[k]? = some s := by
      have h0 := hsuf 0
      simpa using h0.symm
    match j with
    | 0 =>
      simp only [Nat.add_zero]
      refine ⟨s, hk, ?_⟩
      rw [gatherTasks] at h
      cases hg : g k s with
      | error e =>
        rw [hg] at h
        rw [process_results_loop] at h
        simp [hk] at h
        exact Or.inl ⟨e, rfl, h.symm⟩
      | ok fr =>
        rw [hg] at h
        rw [process_results_loop] at h
        simp at h
        subst h
        exact Or.inr rfl
    | Nat.succ j' =>
      have hsuf2 : ∀ i, rest[i]? = scenes_all[k + 1 + i]? := by
        intro i
        have h1 := hsuf (i + 1)
        have harith : k + (i + 1) = k + 1 + i := by omega
        rw [harith] at h1
        simpa using h1
      rw [gatherTasks] at h
      have htail : (process_results_loop scenes_all (k + 1) (gatherTasks g (k + 1) rest))[j']? = some r := by
        cases hg : g k s with
        | error e => rw [hg] at h; rw [process_results_loop] at h; simpa using h
        | ok fr => rw [hg] at h; rw [process_results_loop] at h; simpa using h
      have hres := ih (k + 1) hsuf2 j' r htail
      have harith2 : k + 1 + j' = k + (j' + 1) := by omega
      rw [harith2] at hres
      exact hres

-- Both `generate_audio` branches carry the dispatch index and the scene's
-- number.
theorem generate_audio_fields (s : SceneData) (i : Nat) (job_id : String) (api : ApiOutcome) :
    (generate_audio s i job_id api).1.scene_index = i ∧
    (generate_audio s i job_id api).1.scene_number = s.scene_number := by
  by_cases hb : isBlank s.voiceover <;> simp [generate_audio, hb]

-- Alignment of one gathered-and-processed result list against the scenes,
-- for a task body that tags its results with the dispatch index.
theorem media_task_spec (exn : Nat → Option String) (mk : SceneData → Nat → FragResult)
    (hmk : ∀ s i, (mk s i).scene_index = i ∧ (mk s i).scene_number = s.scene_number)
    (scenes : List SceneData) (j : Nat) (r : FragResult)
    (h : (process_results (gatherTasks (fun i s =>
        match exn i with
        | some e => .error e
        | none => .ok (mk s i)) 0 scenes) scenes)[j]? = some r) :
    ∃ s, scenes[j]? = some s ∧ r.scene_index = j ∧ r.scene_number = s.scene_number ∧
      (∀ e, exn j = some e → r.status = "failed" ∧ r.error = some e) := by
  have hspec := process_gather_spec
    (fun i s => match exn i with
      | some e => .error e
      | none => .ok (mk s i)) scenes scenes 0 (fun j => by simp) j r (by simpa using h)
  simp only [Nat.zero_add] at hspec
  obtain ⟨s, hs, hdisj⟩ := hspec
  refine ⟨s, hs, ?_⟩
  rcases hdisj with ⟨e, hge, hr⟩ | hok
  · subst hr
    cases hx : exn j with
    | none => simp [hx] at hge
    | some e0 =>
      simp [hx] at hge
      subst hge
      exact ⟨rfl, rfl, fun e1 h1 => by
        obtain rfl : e0 = e1 := Option.some.inj h1
        exact ⟨rfl, rfl⟩⟩
  · cases hx : exn j with
    | some e0 => simp [hx] at hok
    | none =>
      simp [hx] at hok
      subst hok
      exact ⟨(hmk s j).1, (hmk s j).2, fun e1 h1 => Option.noConfusion h1⟩

/-- Claim C3 (amended): the video result list always has exactly
`len(input_scenes)` entries, and so does the audio list for every non-short
job, even when every task raises; for `video_type = "short"` the audio list is
empty because no audio tasks are launched.  Position `j` of either list
corresponds to scene `j` (it carries `scene_index = j` and that scene's
`scene_number`), and a task that raises is converted into a `failed` entry
carrying the exception message — `generate_media` is total, so no task
exception ever propagates to the caller. -/
theorem orchestrator_result_alignment (scenes : List SceneData)
    (job_id video_type master_prompt : String)
    (vapi aapi : Nat → ApiOutcome) (vexn aexn : Nat → Option String)
    (out : MediaGenOutput)
    (hout : generate_media scenes job_id video_type master_prompt vapi aapi vexn aexn = out) :
    out.video_results.length = scenes.length
    ∧ (video_type = "short" → out.audio_results = [])
    ∧ (video_type ≠ "short" → out.audio_results.length = scenes.length)
    ∧ (∀ (j : Nat) (r : FragResult), out.video_results[j]? = some r →
        ∃ s, scenes[j]? = some s ∧ r.scene_index = j ∧ r.scene_number = s.scene_number ∧
          (∀ e, vexn j = some e → r.status = "failed" ∧ r.error = some e))
    ∧ (video_type ≠ "short" → ∀ (j : Nat) (r : FragResult), out.audio_results[j]? = some r →
        ∃ s, scenes[j]? = some s ∧ r.scene_index = j ∧ r.scene_number = s.scene_number ∧
          (∀ e, aexn j = some e → r.status = "failed" ∧ r.error = some e)) := by
  subst hout
  by_cases hshort : video_type = "short"
  · subst hshort
    refine ⟨?_, fun _ => by simp [generate_media], fun hne => absurd rfl hne, ?_,
      fun hne => absurd rfl hne⟩
    · simp only [generate_media, beq_self_eq_true, if_pos]
      simp [process_results, process_results_loop_length, gatherTasks_length]
    · intro j r h
      simp only [generate_media, beq_self_eq_true, if_pos] at h
      exact media_task_spec vexn
        (fun s i => generate_video s i job_id "short" master_prompt (vapi i))
        (fun s i => ⟨rfl, rfl⟩) scenes j r h
  · have hb : (video_type == "short") = false := beq_eq_false_iff_ne.mpr hshort
    refine ⟨?_, fun he => absurd he hshort, fun _ => ?_, ?_, fun _ => ?_⟩
    · simp only [generate_media, hb, Bool.false_eq_true, if_neg]
      simp [process_results, process_results_loop_length, gatherTasks_length]
    · simp only [generate_media, hb, Bool.false_eq_true, if_neg]
      simp [process_results, process_results_loop_length, gatherTasks_length]
    · intro j r h
      simp only [generate_media, hb, Bool.false_eq_true, if_neg] at h
      exact media_task_spec vexn
        (fun s i => generate_video s i job_id video_type master_prompt (vapi i))
        (fun s i => ⟨rfl, rfl⟩) scenes j r h
    · intro j r h
      simp only [generate_media, hb, Bool.false_eq_true, if_neg] at h
      exact media_task_spec aexn
        (fun s i => (generate_audio s i job_id (aapi i)).1)
        (fun s i => generate_audio_fields s i job_id (aapi i)) scenes j r h

/-- Claim C3 witness: a one-scene regular job whose video task raises still
yields a one-entry video result list. -/
theorem orchestrator_result_alignment_witness :
    (generate_media
      [{ scene_number := 1, duration := some 10, visual_description := "a", voiceover := "hi",
         positive_prompt := "a", negative_prompt := "", master_prompt_context := {} }]
      "jw" "regular" "" (fun _ => .result true true) (fun _ => .result true true)
      (fun _ => some "boom") (fun _ => none)).video_results.length = 1 :=
  (orchestrator_result_alignment
    [{ scene_number := 1, duration := some 10, visual_description := "a", voiceover := "hi",
       positive_prompt := "a", negative_prompt := "", master_prompt_context := {} }]
    "jw" "regular" "" (fun _ => .result true true) (fun _ => .result true true)
    (fun _ => some "boom") (fun _ => none) _ rfl).1

/-- Claim C3 counterexample: for a one-scene short job the audio result list
returned by `generate_media` is empty, so its length differs from
`len(input_scenes)` — the claim as stated fails for the audio list of short
jobs. -/
theorem orchestrator_short_audio_list_counterexample :
    (generate_media
      [{ scene_number := 1, duration := some 10, visual_description := "a", voiceover := "hi",
         positive_prompt := "a", negative_prompt := "", master_prompt_context := {} }]
      "jc" "short" "" (fun _ => .result true true) (fun _ => .result true true)
      (fun _ => none) (fun _ => none)).audio_results.length ≠
    ([{ scene_number := 1, duration := some 10, visual_description := "a", voiceover := "hi",
        positive_prompt := "a", negative_prompt := "", master_prompt_context := {} }] :
      List SceneData).length := by
  decide

/-- Claim C5: for every short job `generate_media` creates zero audio tasks,
issues zero audio inference calls, and returns an empty audio result list —
the skip happens at dispatch, not generate-then-discard. -/
theorem shorts_skip_audio_generation (scenes : List SceneData) (job_id master_prompt : String)
    (vapi aapi : Nat → ApiOutcome) (vexn aexn : Nat → Option String) :
    (generate_media scenes job_id "short" master_prompt vapi aapi vexn aexn).audio_tasks_launched = 0
    ∧ (generate_media scenes job_id "short" master_prompt vapi aapi vexn aexn).audio_api_calls = 0
    ∧ (generate_media scenes job_id "short" master_prompt vapi aapi vexn aexn).audio_results = [] := by
  refine ⟨?_, ?_, ?_⟩ <;> simp [generate_media]

/-- Claim C7: for every parsed structure without a `scenes` key, scene
extraction raises the fatal missing-scenes error and returns no scene list —
there is no fallback that splits raw text into pseudo-scenes on this code
path. -/
theorem extract_scenes_missing_key_fatal (inp : ParsedInput)
    (h : hasScenesKey inp = false) :
    extract_scenes inp = .error "Response missing scenes key" := by
  cases inp with
  | dict sc mpc =>
    cases sc with
    | none => rfl
    | some l => simp [hasScenesKey] at h
  | nonDict => rfl

/-- Claim C7 witness: a dict without a `scenes` key is rejected. -/
theorem extract_scenes_missing_key_fatal_witness :
    hasScenesKey (.dict none none) = false
    ∧ extract_scenes (.dict none none) = .error "Response missing scenes key" :=
  ⟨rfl, extract_scenes_missing_key_fatal (.dict none none) rfl⟩

/-- Claim C6: the audio fragment result is `skipped` exactly when the scene's
voiceover text is empty or whitespace-only — for no other reason; a
non-exception result (so in particular a skipped one) passes through
`process_results` unchanged at its position, never rewritten to `failed`; and
the job-level success tally of `store_results` counts only `success` entries,
so a skipped entry is never counted as a failure. -/
theorem audio_skipped_policy (scene : SceneData) (i : Nat) (job_id : String) (api : ApiOutcome) :
    ((generate_audio scene i job_id api).1.status = "skipped" ↔ isBlank scene.voiceover = true)
    ∧ (∀ (scenes : List SceneData) (k j : Nat) (rs : List (Except String FragResult)) (r : FragResult),
        rs[j]? = some (.ok r) → (process_results_loop scenes k rs)[j]? = some r)
    ∧ (∀ (v a : List FragResult) (r : FragResult), r.status = "skipped" →
        (store_results v (r :: a)).successful_audio = (store_results v a).successful_audio) := by
  refine ⟨?_, fun scenes k j rs r h => process_results_loop_ok_get scenes k rs j r h, ?_⟩
  · by_cases hb : isBlank scene.voiceover
    · simp [generate_audio, hb]
    · simp [generate_audio, hb]
      split <;> decide
  · intro v a r hr
    have : (r.status == "success") = false := by
      rw [hr]; decide
    simp [store_results, successCount, this]

/-- Claim C6 witness: a whitespace-only voiceover is skipped, and a skipped
entry leaves the audio success tally unchanged. -/
theorem audio_skipped_policy_witness :
    ((generate_audio
        { scene_number := 1, duration := some 10, visual_description := "a", voiceover := "  ",
          positive_prompt := "a", negative_prompt := "", master_prompt_context := {} }
        0 "jw" (.result true true)).1.status = "skipped" ↔
      isBlank ("  " : String) = true)
    ∧ (store_results []
        [{ scene_index := 0, scene_number := 1, status := "skipped" }]).successful_audio =
      (store_results [] []).successful_audio := by
  have h := audio_skipped_policy
    { scene_number := 1, duration := some 10, visual_description := "a", voiceover := "  ",
      positive_prompt := "a", negative_prompt := "", master_prompt_context := {} }
    0 "jw" (.result true true)
  exact ⟨h.1, h.2.2 [] [] { scene_index := 0, scene_number := 1, status := "skipped" } rfl⟩

/-- Claim C9 counterexample: a scene without `duration_seconds` extracted for
a short job produces a video request whose duration is 10, not 5 —
`extract_scenes` applies its unconditional 10-second default before
`get_video_request` can apply the short-form 5-second one. -/
theorem short_duration_default_counterexample :
    extract_scenes (.dict (some [{}]) none) = .ok [sceneFromRaw {} 0 {}]
    ∧ ({} : RawScene).duration_seconds = none
    ∧ (get_video_request (sceneFromRaw {} 0 {}) "short" "").duration = 10
    ∧ (get_video_request (sceneFromRaw {} 0 {}) "short" "").duration ≠ 5 :=
  ⟨rfl, rfl, by decide, by decide⟩

/-- Claim C9 (amended): a scene with no explicit `duration_seconds` defaults
to 10 seconds for regular AND short jobs alike, and the request payload
carries that defaulted duration (an explicit duration is carried unchanged);
`get_video_request`'s 5-second short-form default applies only to a scene
dict with no `duration` key at all, which `extract_scenes` never produces. -/
theorem duration_default_is_ten (raw : RawScene) (mpc : MasterContext) (idx : Nat)
    (master_prompt : String) (h : raw.duration_seconds = none) :
    (sceneFromRaw mpc idx raw).duration = some 10
    ∧ (get_video_request (sceneFromRaw mpc idx raw) "short" master_prompt).duration = 10
    ∧ (get_video_request (sceneFromRaw mpc idx raw) "regular" master_prompt).duration = 10
    ∧ (∀ (raw2 : RawScene) (d : Nat), raw2.duration_seconds = some d →
        (get_video_request (sceneFromRaw mpc idx raw2) "short" master_prompt).duration = d
        ∧ (get_video_request (sceneFromRaw mpc idx raw2) "regular" master_prompt).duration = d)
    ∧ (∀ s : SceneData, s.duration = none →
        (get_video_request s "short" master_prompt).duration = 5
        ∧ (get_video_request s "regular" master_prompt).duration = 10) := by
  refine ⟨by simp [sceneFromRaw, h], by simp [sceneFromRaw, get_video_request, h],
    by simp [sceneFromRaw, get_video_request, h],
    fun raw2 d hd => ⟨by simp [sceneFromRaw, get_video_request, hd],
      by simp [sceneFromRaw, get_video_request, hd]⟩,
    fun s hs => ⟨by simp [get_video_request, hs], by simp [get_video_request, hs]⟩⟩

/-- Claim C9 witness: the all-defaults raw scene extracts with duration 10
and its short-form request carries 10. -/
theorem duration_default_is_ten_witness :
    (sceneFromRaw {} 0 {}).duration = some 10
    ∧ (get_video_request (sceneFromRaw {} 0 {}) "short" "").duration = 10 := by
  have h := duration_default_is_ten {} {} 0 "" rfl
  exact ⟨h.1, h.2.1⟩

/-- Claim C4: the completion trigger's branch table — media stage with
`video_type = "short"` invokes exactly the Publisher (composition bypassed),
media stage with `video_type = "regular"` invokes exactly the Compositor, and
composition-stage completion invokes exactly the Publisher (the last branch
is infrastructure wiring modelled from the spec, see
`composition_complete_trigger`). -/
theorem completion_trigger_branch_table (job_id : String) (env : TriggerEnv)
    (yfn cfn : String) (hy : env.youtube_fn = some yfn) (hc : env.compose_fn = some cfn) :
    trigger_next_step job_id "short" env =
      [{ target := yfn, payload_job := job_id, payload_video_type := some "short" }]
    ∧ trigger_next_step job_id "regular" env =
      [{ target := cfn, payload_job := job_id }]
    ∧ composition_complete_trigger job_id env =
      [{ target := yfn, payload_job := job_id }] := by
  refine ⟨?_, ?_, ?_⟩
  · simp [trigger_next_step, hy]
  · simp [trigger_next_step, hc]
  · simp [composition_complete_trigger, hy]

/-- Claim C4 witness: a configured environment routes a short job to the
upload function and a regular job to the compose function. -/
theorem completion_trigger_branch_table_witness :
    trigger_next_step "jt" "short" { youtube_fn := some "yt", compose_fn := some "cp" } =
      [{ target := "yt", payload_job := "jt", payload_video_type := some "short" }]
    ∧ trigger_next_step "jt" "regular" { youtube_fn := some "yt", compose_fn := some "cp" } =
      [{ target := "cp", payload_job := "jt" }] := by
  have h := completion_trigger_branch_table "jt"
    { youtube_fn := some "yt", compose_fn := some "cp" } "yt" "cp" rfl rfl
  exact ⟨h.1, h.2.1⟩

/-- Claim C8 counterexample: for a short job whose bucket holds the raw
fragments of scenes 1 and 2, the Publisher's source selection returns the raw
scene-1 fragment key under `generated-videos/` — a key produced by the media
stage, under neither a composed nor a final prefix — so the published file is
a raw fragment, not a music-muxed end-screen artifact. -/
theorem short_publishes_raw_fragment_counterexample :
    get_composed_video_s3_key "j1" "short" [videoS3Key "j1" 1, videoS3Key "j1" 2] =
      some (videoS3Key "j1" 1)
    ∧ videoS3Key "j1" 1 = "generated-videos/j1/scene_01.mp4"
    ∧ strStarts (videoS3Key "j1" 1) "composed-videos/" = false
    ∧ strStarts (videoS3Key "j1" 1) "final-videos/" = false := by
  refine ⟨by decide, by decide, by decide, by decide⟩

/-- Claim C8 (amended): for every short job the Completion Trigger bypasses
composition and invokes the Publisher directly, and whatever key the Publisher
selects as the upload source lies under the raw fragment listing
`generated-videos/{job_id}/` (preferring the `scene_01` fragment) — no
concatenation, end-screen, or background-music step exists on the short
path. -/
theorem short_upload_source_is_raw_fragment (job_id : String) (listing : List String)
    (k : String) (env : TriggerEnv) (yfn : String)
    (hk : get_composed_video_s3_key job_id "short" listing = some k)
    (hy : env.youtube_fn = some yfn) :
    strStarts k ("generated-videos/" ++ job_id ++ "/") = true
    ∧ k ∈ listing
    ∧ trigger_next_step job_id "short" env =
      [{ target := yfn, payload_job := job_id, payload_video_type := some "short" }] := by
  refine ⟨?_, ?_, by simp [trigger_next_step, hy]⟩
  all_goals {
    rw [get_composed_video_s3_key] at hk
    simp only [beq_self_eq_true, if_pos] at hk
    by_cases hempty : (listing.filter (fun key =>
        strStarts key ("generated-videos/" ++ job_id ++ "/"))).isEmpty
    · rw [if_pos hempty] at hk
      exact Option.noConfusion hk
    · rw [if_neg hempty] at hk
      have hmem : k ∈ listing.filter (fun key =>
          strStarts key ("generated-videos/" ++ job_id ++ "/")) := by
        rcases hfind : (listing.filter (fun key =>
            strStarts key ("generated-videos/" ++ job_id ++ "/"))).find? (fun key =>
              strEnds key ".mp4" && strContains key "scene_01") with _ | k0
        · rw [hfind] at hk
          exact List.mem_of_find?_eq_some (by simpa using hk)
        · rw [hfind] at hk
          have : k0 = k := by simpa using hk
          subst this
          exact List.mem_of_find?_eq_some hfind
      first
      | exact (List.mem_filter.mp hmem).2
      | exact (List.mem_filter.mp hmem).1
  }

/-- Claim C8 witness: the selected short-job upload source in the concrete
listing is the raw scene-1 fragment. -/
theorem short_upload_source_is_raw_fragment_witness :
    strStarts "generated-videos/j1/scene_01.mp4" ("generated-videos/" ++ "j1" ++ "/") = true
    ∧ "generated-videos/j1/scene_01.mp4" ∈
        ["generated-videos/j1/scene_01.mp4", "generated-videos/j1/scene_02.mp4"] := by
  have h := short_upload_source_is_raw_fragment "j1"
    ["generated-videos/j1/scene_01.mp4", "generated-videos/j1/scene_02.mp4"]
    "generated-videos/j1/scene_01.mp4" { youtube_fn := some "yt" } "yt" (by decide) rfl
  exact ⟨h.1, h.2.1⟩
